import Mathlib

set_option maxRecDepth 8192

/-!
Shallow embedding of `scpdocgen.py` (SCP-DOC repository).

The program renders a JSON-like document record into a static HTML page.
We model JSON values with `JVal`, Python runtime errors with `PyErr`, and
translate each Python function into a Lean definition of the same name.
Machine-level caveats of the model (documented where they matter):
`str.lower`/`str.strip` are modelled on ASCII (all table keys and all
whitespace relevant to the templates are ASCII), JSON numbers are modelled
as integers (no claim involves floats), and `repr` of strings inside
containers ignores the Python quote-switching rules (no claim reaches it).
-/

namespace SCPDoc



/-! ## Definitions: embedding of scpdocgen.py and observation tools -/

/-- Values a parsed JSON document can hold, plus Python `None`. -/
inductive JVal where
  | null
  | b (x : Bool)
  | num (n : Int)
  | str (s : String)
  | list (xs : List JVal)
  | dict (kvs : List (String × JVal))

/-- Python runtime errors the renderer can raise. -/
inductive PyErr where
  | attributeError (m : String)
  | typeError (m : String)
deriving DecidableEq, Repr

/-- Python `", ".join`-style join, with the exact semantics of `str.join`. -/
def pyJoin (sep : String) : List String → String
  | [] => ""
  | [x] => x
  | x :: xs => x ++ sep ++ pyJoin sep xs

mutual

/-- Python `repr` of a value (string quoting simplified to bare quotes). -/
def pyRepr : JVal → String
  | .null => "None"
  | .b true => "True"
  | .b false => "False"
  | .num n => toString n
  | .str s => "\x27" ++ s ++ "\x27"
  | .list xs => "[" ++ pyJoin ", " (pyReprList xs) ++ "]"
  | .dict kvs => "\x7b" ++ pyJoin ", " (pyReprKVs kvs) ++ "\x7d"

/-- Helper of `pyRepr` for list elements. -/
def pyReprList : List JVal → List String
  | [] => []
  | x :: xs => pyRepr x :: pyReprList xs

/-- Helper of `pyRepr` for dict entries. -/
def pyReprKVs : List (String × JVal) → List String
  | [] => []
  | (k, v) :: xs => ("\x27" ++ k ++ "\x27: " ++ pyRepr v) :: pyReprKVs xs

end

/-- Python `str()` of a value. -/
def pyStr : JVal → String
  | .str s => s
  | v => pyRepr v

/-- Python truthiness of a value. -/
def pyTruthy : JVal → Bool
  | .null => false
  | .b x => x
  | .num n => n != 0
  | .str s => s != ""
  | .list xs => !xs.isEmpty
  | .dict kvs => !kvs.isEmpty

/-- Python `str.lower` (ASCII). -/
def pyLower (s : String) : String := String.mk (s.data.map Char.toLower)

/-- Whitespace stripped by Python `str.strip()` (ASCII portion). -/
def pyIsSpace (c : Char) : Bool :=
  c = ' ' || c = '\t' || c = '\n' || c = '\r' || c.toNat = 11 || c.toNat = 12

/-- Character-list form of `str.strip()`. -/
def stripChars (cs : List Char) : List Char :=
  ((cs.dropWhile pyIsSpace).reverse.dropWhile pyIsSpace).reverse

/-- Python `str.strip()` with no arguments. -/
def pyStrip (s : String) : String := String.mk (stripChars s.data)

/-- Replacement `html.escape` performs on one character (quote=True). -/
def escChar (c : Char) : String :=
  if c = '&' then "&amp;"
  else if c = '<' then "&lt;"
  else if c = '>' then "&gt;"
  else if c.toNat = 34 then "&quot;"
  else if c.toNat = 39 then "&#x27;"
  else String.singleton c

/-- Character-list form of `html.escape`. -/
def escL : List Char → List Char
  | [] => []
  | c :: cs => (escChar c).data ++ escL cs

/-- Python `html.escape(s, quote=True)` on a string. -/
def escS (s : String) : String := String.mk (escL s.data)

/-- Source `esc`: `html.escape(str(s), quote=True)` (scpdocgen.py line 66). -/
def esc (s : JVal) : String := escS (pyStr s)

/-- First-match association-list lookup, as `dict.get` finds keys. -/
def pyLookup : List (String × JVal) → String → Option JVal
  | [], _ => none
  | (k, v) :: rest, key => if k = key then some v else pyLookup rest key

/-- Python `dict.get(key, default)` on a known dict. -/
def pyGetD (kvs : List (String × JVal)) (key : String) (dflt : JVal) : JVal :=
  (pyLookup kvs key).getD dflt

/-- Attribute access `.get(key, default)` on an arbitrary value: raises
`AttributeError` when the value is not a dict, as Python does. -/
def jGetD : JVal → String → JVal → Except PyErr JVal
  | .dict kvs, key, dflt => .ok (pyGetD kvs key dflt)
  | _, _, _ => .error (.attributeError "get")

/-- Python `v == "lit"` for a JSON value against a string literal. -/
def pyEqStr (v : JVal) (s : String) : Bool :=
  match v with
  | .str t => t = s
  | _ => false

/-- Python iteration `for x in v`: lists yield elements, strings yield
one-character strings, dicts yield their keys; other values raise. -/
def pyIter : JVal → Except PyErr (List JVal)
  | .list xs => .ok xs
  | .str s => .ok (s.data.map fun c => .str (String.singleton c))
  | .dict kvs => .ok (kvs.map fun kv => .str kv.1)
  | _ => .error (.typeError "not iterable")

/-- Fixed icon base URL (scpdocgen.py lines 13-16). -/
def ACS_ICON_BASE : String :=
  "https://scp-wiki.wdfiles.com/local--files/component:anomaly-class-bar"

/-- Fixed classification-keyword-to-icon-file table (scpdocgen.py lines 18-53). -/
def ACS_ICON_MAP : List (String × String) :=
  [("safe", "safe-icon.svg"),
   ("euclid", "euclid-icon.svg"),
   ("keter", "keter-icon.svg"),
   ("neutralized", "neutralized-icon.svg"),
   ("pending", "pending-icon.svg"),
   ("explained", "explained-icon.svg"),
   ("esoteric", "esoteric-icon.svg"),
   ("thaumiel", "thaumiel-icon.svg"),
   ("apollyon", "apollyon-icon.svg"),
   ("archon", "archon-icon.svg"),
   ("cernunnos", "cernunnos-icon.svg"),
   ("decommissioned", "decommissioned-icon.svg"),
   ("hiemal", "hiemal-icon.svg"),
   ("tiamat", "tiamat-icon.svg"),
   ("ticonderoga", "ticonderoga-icon.svg"),
   ("uncontained", "uncontained-icon.svg"),
   ("dark", "dark-icon.svg"),
   ("vlam", "vlam-icon.svg"),
   ("keneq", "keneq-icon.svg"),
   ("ekhi", "ekhi-icon.svg"),
   ("amida", "amida-icon.svg"),
   ("none", "notice-icon.svg"),
   ("notice", "notice-icon.svg"),
   ("caution", "caution-icon.svg"),
   ("warning", "warning-icon.svg"),
   ("danger", "danger-icon.svg"),
   ("critical", "critical-icon.svg")]

/-- First-match lookup in the icon table (it drives `ACS_ICON_MAP.get`). -/
def iconLookup : List (String × String) → String → Option String
  | [], _ => none
  | (k, v) :: rest, key => if k = key then some v else iconLookup rest key

/-- Source `acs_icon_url` (scpdocgen.py lines 55-60); `value.lower()` raises
`AttributeError` when the value is not a string, as Python does. -/
def acs_icon_url : JVal → Except PyErr (Option String)
  | .str s =>
    match iconLookup ACS_ICON_MAP (pyLower s) with
    | none => .ok none
    | some filename =>
      .ok (if filename = "" then none else some (ACS_ICON_BASE ++ "/" ++ filename))
  | _ => .error (.attributeError "lower")

/-- Source `acs_badge` (scpdocgen.py lines 105-124). -/
def acs_badge (label : String) (value : JVal) : Except PyErr String := do
  let icon? ← acs_icon_url value
  match icon? with
  | none => .ok ""
  | some icon =>
    if icon = "" then .ok ""
    else
      .ok (pyStrip ("\n<div class=\"badge badge--acs\">\n  <img\n    src=\""
        ++ (icon ++ "\"\n    alt=\"" ++ escS label ++ ": " ++ esc value
          ++ "\"\n    class=\"badge__icon\"\n    loading=\"lazy\"\n    referrerpolicy=\"no-referrer\"\n  >\n  <div class=\"badge__text\">\n    <div class=\"badge__label\">"
          ++ escS label ++ "</div>\n    <div class=\"badge__value\">" ++ esc value)
        ++ "</div>\n  </div>\n</div>\n"))

/-- Subtitle fragment shared by both headers (scpdocgen.py lines 97 and 145):
emitted only when `data.get("subtitle")` is truthy. -/
def subtitle_frag (subv : JVal) : String :=
  if pyTruthy subv then "<div class=\x27doc-subtitle\x27>" ++ esc subv ++ "</div>" else ""

/-- Source `render_classic_header` (scpdocgen.py lines 89-103). -/
def render_classic_header (data : JVal) : Except PyErr String := do
  let classic ← jGetD data "classic" (.dict [])
  let tdef ← jGetD data "title" (.str "SCP-XXXX")
  let item_number ← jGetD classic "item_number" tdef
  let object_class ← jGetD classic "object_class" (.str "Euclid")
  let tdisp ← jGetD data "title" item_number
  let subv ← jGetD data "subtitle" .null
  .ok (pyStrip ("\n<section class=\"doc-header\">\n  <div class=\"doc-title\">"
    ++ (esc tdisp ++ "</div>\n  " ++ subtitle_frag subv
      ++ "\n  <div class=\"meta-lines\">\n    <div><span class=\"meta-key\">Item #:</span> "
      ++ esc item_number
      ++ "</div>\n    <div><span class=\"meta-key\">Object Class:</span> "
      ++ esc object_class)
    ++ "</div>\n  </div>\n</section>\n"))

/-- Clearance line computed on scpdocgen.py line 133: `"Level {level}"`,
suffixed with `": {label}"` only when the label value is truthy. -/
def acs_clearance (lvl lbl : JVal) : String :=
  "Level " ++ pyStr lvl ++ (if pyTruthy lbl then ": " ++ pyStr lbl else "")

/-- Memo fragment on scpdocgen.py line 150: an anchor emitted only when
`memo_url` is truthy, interpolated inside an HTML comment. -/
def memo_frag (memo_url : JVal) : String :=
  if pyTruthy memo_url then
    "<a class=\x27memo-link\x27 href=\x27" ++ esc memo_url ++ "\x27>Link to memo</a>"
  else ""

/-- Source `render_acs_header` (scpdocgen.py lines 126-160). -/
def render_acs_header (data : JVal) : Except PyErr String := do
  let acs ← jGetD data "acs" (.dict [])
  let title ← jGetD data "title" (.str "SCP-XXXX")
  let item_number ← jGetD acs "item_number" title
  let clearance_level ← jGetD acs "clearance_level" (.num 2)
  let clearance_label ← jGetD acs "clearance_label" (.str "")
  let clearance := acs_clearance clearance_level clearance_label
  let containment ← jGetD acs "containment_class" (.str "euclid")
  let secondary ← jGetD acs "secondary_class" (.str "none")
  let disruption ← jGetD acs "disruption_class" (.str "none")
  let risk ← jGetD acs "risk_class" (.str "notice")
  let memo_url ← jGetD acs "memo_url" .null
  let subv ← jGetD data "subtitle" .null
  let b1 ← acs_badge "Containment" containment
  let b2 ← acs_badge "Secondary" secondary
  let b3 ← acs_badge "Disruption" disruption
  let b4 ← acs_badge "Risk" risk
  .ok (pyStrip ("\n<section class=\"doc-header\">\n  <div class=\"doc-title\">"
    ++ (esc title ++ "</div>\n  " ++ subtitle_frag subv
      ++ "\n  <div class=\"acs-bar\">\n    <div class=\"acs-top\">\n      <div class=\"acs-item\"><span class=\"acs-k\">Item #</span>"
      ++ esc item_number
      ++ "</div>\n      <div class=\"acs-item\"><span class=\"acs-k\">Clearance</span>"
      ++ escS clearance
      ++ "</div>\n      <!-- " ++ memo_frag memo_url
      ++ " -->\n    </div>\n    <div class=\"acs-badges\">\n      " ++ b1
      ++ "\n      " ++ b2 ++ "\n      " ++ b3 ++ "\n      " ++ b4)
    ++ "\n    </div>\n  </div>\n</section>\n"))

/-- Paragraph generator of `to_paragraphs` (scpdocgen.py lines 79-83): items
pass the filter when `str(p).strip()` is non-blank, and each passing item is
rendered with `p.strip()`, which raises `AttributeError` on non-strings. -/
def paraList : List JVal → Except PyErr (List String)
  | [] => .ok []
  | p :: rest =>
    if pyStrip (pyStr p) = "" then paraList rest
    else
      match p with
      | .str s => do
        let rs ← paraList rest
        .ok (("<p>" ++ escS (pyStrip s) ++ "</p>") :: rs)
      | _ => .error (.attributeError "strip")

/-- Source `to_paragraphs` (scpdocgen.py lines 69-83). -/
def to_paragraphs (body : JVal) : Except PyErr String :=
  match body with
  | .null => .ok ""
  | .str s => do
    let frags ← paraList [.str s]
    .ok (pyJoin "\n" frags)
  | .list xs => do
    let frags ← paraList xs
    .ok (pyJoin "\n" frags)
  | v => do
    let frags ← paraList [.str (pyStr v)]
    .ok (pyJoin "\n" frags)

/-- Loop body of `render_sections` (scpdocgen.py lines 167-178). -/
def renderSecList : List JVal → Except PyErr (List String)
  | [] => .ok []
  | sec :: rest => do
    let kind ← jGetD sec "kind" .null
    let cls := if pyEqStr kind "log" then "section section--log" else "section"
    let heading ← jGetD sec "heading" (.str "Section")
    let body ← jGetD sec "body" .null
    let paras ← to_paragraphs body
    let s := pyStrip ("\n<section class=\""
      ++ (cls ++ "\">\n  <h2>" ++ esc heading ++ "</h2>\n  " ++ paras)
      ++ "\n</section>\n")
    let rs ← renderSecList rest
    .ok (s :: rs)

/-- Source `render_sections` (scpdocgen.py lines 166-178). -/
def render_sections (data : JVal) : Except PyErr String := do
  let secsv ← jGetD data "sections" (.list [])
  let secs ← pyIter secsv
  let out ← renderSecList secs
  .ok (pyJoin "\n" out)

/-- Source `render_footer` (scpdocgen.py lines 180-188). -/
def render_footer (data : JVal) : Except PyErr String := do
  let foot ← jGetD data "footer" (.dict [])
  let l ← jGetD foot "left" (.str "«")
  let tdef ← jGetD data "title" (.str "SCP")
  let c ← jGetD foot "center" tdef
  let r ← jGetD foot "right" (.str "»")
  .ok (pyStrip ("\n<footer class=\"doc-footer\">\n  <span>"
    ++ (esc l ++ "</span>\n  <span>" ++ esc c ++ "</span>\n  <span>" ++ esc r)
    ++ "</span>\n</footer>\n"))

/-- Embedded stylesheet text of `build_html` (scpdocgen.py lines 203-213),
with the Python doubled braces collapsed to literal braces. -/
def CSS_TEXT : String :=
  "body \x7b background:#0c0d10; color:#e8e8ee; font:15px/1.5 system-ui,sans-serif; \x7d\n.doc \x7b max-width:960px; margin:40px auto; padding:24px; background:#121420; border-radius:16px; \x7d\n.doc-title \x7b font-size:26px; font-weight:800; \x7d\n.meta-key \x7b color:#b7b7c8; font-weight:700; \x7d\n.acs-bar \x7b margin-top:14px; padding:12px; border:1px solid rgba(255,255,255,.15); border-radius:12px; \x7d\n.acs-badges \x7b display:grid; grid-template-columns:repeat(4,1fr); gap:10px; \x7d\n.badge--acs \x7b display:flex; gap:10px; align-items:center; border:1px solid rgba(255,255,255,.15); padding:8px; border-radius:10px; \x7d\n.badge__icon \x7b width:28px; height:28px; \x7d\n.section \x7b margin-top:20px; \x7d\n.section--log p \x7b font-family:monospace; background:rgba(0,0,0,.25); padding:8px; border-radius:8px; \x7d\n.doc-footer \x7b display:flex; justify-content:space-between; margin-top:30px; color:#b7b7c8; font-size:12px; \x7d\n"

/-- Page template of `build_html` (scpdocgen.py lines 197-224) around the
already-rendered header, sections and footer fragments. -/
def pageText (t : JVal) (header secs ft : String) : String :=
  "<!doctype html>\n<html lang=\"en\">\n<head>\n<meta charset=\"utf-8\">\n<title>" ++ esc t
  ++ "</title>\n<style>\n" ++ CSS_TEXT ++ "</style>\n</head>\n<body>\n<article class=\"doc\">\n"
  ++ header ++ "\n" ++ secs ++ "\n" ++ ft ++ "\n</article>\n</body>\n</html>\n"

/-- Assembly step of `build_html` (scpdocgen.py lines 197-224): evaluation of
the page f-string around the already-selected header fragment. -/
def assemble_page (data : JVal) (header : String) : Except PyErr String := do
  let t ← jGetD data "title" (.str "SCP Document")
  let secs ← render_sections data
  let ft ← render_footer data
  .ok (pageText t header secs ft)

/-- Source `build_html` (scpdocgen.py lines 190-224): header selection on
lines 191-195, then the page template. -/
def build_html (data : JVal) : Except PyErr String := do
  let hm ← jGetD data "header_mode" .null
  let header ← if pyEqStr hm "acs" then render_acs_header data else render_classic_header data
  assemble_page data header

/-- Test whether the first list is a prefix of the second. -/
def headEq : List Char → List Char → Bool
  | [], _ => true
  | _ :: _, [] => false
  | p :: ps, c :: cs => p = c && headEq ps cs

/-- Number of (possibly overlapping) occurrences of `pat` in `hay`,
structurally recursive form used for reasoning. -/
def countSubR (hay pat : List Char) : Nat :=
  match hay with
  | [] => 0
  | c :: cs => (if headEq pat (c :: cs) then 1 else 0) + countSubR cs pat

/-- Tail-recursive occurrence counter; the accumulator is matched on so that
evaluation keeps it a literal. -/
def countSubAux : List Char → List Char → Nat → Nat
  | [], _, acc => acc
  | c :: cs, pat, 0 => countSubAux cs pat (if headEq pat (c :: cs) then 1 else 0)
  | c :: cs, pat, n+1 => countSubAux cs pat ((if headEq pat (c :: cs) then 1 else 0) + (n+1))

/-- Number of (possibly overlapping) occurrences of `pat` in `hay`. -/
def countSub (hay pat : List Char) : Nat := countSubAux hay pat 0

/-- Occurrence count of a pattern in the string a renderer produced
(`none` when the renderer raised). -/
def cnt (r : Except PyErr String) (pat : String) : Option Nat :=
  match r with
  | .ok s => some (countSub s.data pat.data)
  | .error _ => none

/-- Test for a string value. -/
def isStrB : JVal → Bool
  | .str _ => true
  | _ => false

/-- Bodies on which `to_paragraphs` completes: anything except a list holding
a non-string element (see C2/C5 for the raising case). -/
def bodyGood : JVal → Bool
  | .list good => good.all isStrB
  | _ => true

/-- Normalization step as the spec words it: absent body becomes the empty
sequence, a single string a one-element sequence, a sequence stays itself
(string entries), anything else a one-element sequence via string
conversion. -/
def spec_normalize : JVal → List String
  | .null => []
  | .str s => [s]
  | .list xs => xs.filterMap (fun x => match x with | .str s => some s | _ => none)
  | v => [pyStr v]

/-- Spec-worded paragraph step: strip the entry, discard it when blank,
otherwise wrap the stripped entry in an escaped paragraph. -/
def spec_para (s : String) : Option String :=
  if pyStrip s = "" then none else some ("<p>" ++ escS (pyStrip s) ++ "</p>")

/-- Example record of spec section 8. -/
def exampleRecordC8 : JVal := JVal.dict
  [("title", .str "SCP-999"), ("header_mode", .str "acs"),
   ("acs", .dict [("clearance_level", .num 3), ("clearance_label", .str "Site Director")]),
   ("sections", .list [.dict [("heading", .str "Description"),
     ("body", .list [.str "Line one.", .str "", .str " ", .str "Line two."])]])]

def sLeft (x : String) : String := String.mk (x.data.dropWhile pyIsSpace)

def sRight (y : String) : String := String.mk ((y.data.reverse.dropWhile pyIsSpace).reverse)

inductive Frag where
  | lit (s : String)
  | usr (s : String)

def fragStr : Frag → String
  | .lit s => s
  | .usr s => escS s

def renderFrags : List Frag → String
  | [] => ""
  | f :: fs => fragStr f ++ renderFrags fs

def acs_badgeF (label : String) (value : JVal) : Except PyErr (List Frag) := do
  let icon? ← acs_icon_url value
  match icon? with
  | none => .ok []
  | some icon =>
    if icon = "" then .ok []
    else .ok [.lit "<div class=\"badge badge--acs\">\n  <img\n    src=\"", .lit icon,
      .lit "\"\n    alt=\"", .usr label, .lit ": ", .usr (pyStr value),
      .lit "\"\n    class=\"badge__icon\"\n    loading=\"lazy\"\n    referrerpolicy=\"no-referrer\"\n  >\n  <div class=\"badge__text\">\n    <div class=\"badge__label\">",
      .usr label, .lit "</div>\n    <div class=\"badge__value\">", .usr (pyStr value),
      .lit "</div>\n  </div>\n</div>"]

def subtitle_fragF (subv : JVal) : List Frag :=
  if pyTruthy subv then
    [.lit "<div class=\x27doc-subtitle\x27>", .usr (pyStr subv), .lit "</div>"]
  else []

def memo_fragF (memo_url : JVal) : List Frag :=
  if pyTruthy memo_url then
    [.lit "<a class=\x27memo-link\x27 href=\x27", .usr (pyStr memo_url), .lit "\x27>Link to memo</a>"]
  else []

def render_classic_headerF (data : JVal) : Except PyErr (List Frag) := do
  let classic ← jGetD data "classic" (.dict [])
  let tdef ← jGetD data "title" (.str "SCP-XXXX")
  let item_number ← jGetD classic "item_number" tdef
  let object_class ← jGetD classic "object_class" (.str "Euclid")
  let tdisp ← jGetD data "title" item_number
  let subv ← jGetD data "subtitle" .null
  .ok ([.lit "<section class=\"doc-header\">\n  <div class=\"doc-title\">", .usr (pyStr tdisp),
      .lit "</div>\n  "] ++ subtitle_fragF subv
    ++ [.lit "\n  <div class=\"meta-lines\">\n    <div><span class=\"meta-key\">Item #:</span> ",
      .usr (pyStr item_number),
      .lit "</div>\n    <div><span class=\"meta-key\">Object Class:</span> ",
      .usr (pyStr object_class), .lit "</div>\n  </div>\n</section>"])

def render_acs_headerF (data : JVal) : Except PyErr (List Frag) := do
  let acs ← jGetD data "acs" (.dict [])
  let title ← jGetD data "title" (.str "SCP-XXXX")
  let item_number ← jGetD acs "item_number" title
  let clearance_level ← jGetD acs "clearance_level" (.num 2)
  let clearance_label ← jGetD acs "clearance_label" (.str "")
  let clearance := acs_clearance clearance_level clearance_label
  let containment ← jGetD acs "containment_class" (.str "euclid")
  let secondary ← jGetD acs "secondary_class" (.str "none")
  let disruption ← jGetD acs "disruption_class" (.str "none")
  let risk ← jGetD acs "risk_class" (.str "notice")
  let memo_url ← jGetD acs "memo_url" .null
  let subv ← jGetD data "subtitle" .null
  let b1 ← acs_badgeF "Containment" containment
  let b2 ← acs_badgeF "Secondary" secondary
  let b3 ← acs_badgeF "Disruption" disruption
  let b4 ← acs_badgeF "Risk" risk
  .ok ([.lit "<section class=\"doc-header\">\n  <div class=\"doc-title\">", .usr (pyStr title),
      .lit "</div>\n  "] ++ subtitle_fragF subv
    ++ [.lit "\n  <div class=\"acs-bar\">\n    <div class=\"acs-top\">\n      <div class=\"acs-item\"><span class=\"acs-k\">Item #</span>",
      .usr (pyStr item_number),
      .lit "</div>\n      <div class=\"acs-item\"><span class=\"acs-k\">Clearance</span>",
      .usr clearance, .lit "</div>\n      <!-- "] ++ memo_fragF memo_url
    ++ [.lit " -->\n    </div>\n    <div class=\"acs-badges\">\n      "] ++ b1
    ++ [.lit "\n      "] ++ b2 ++ [.lit "\n      "] ++ b3 ++ [.lit "\n      "] ++ b4
    ++ [.lit "\n    </div>\n  </div>\n</section>"])

def paraListF : List JVal → Except PyErr (List (List Frag))
  | [] => .ok []
  | p :: rest =>
    if pyStrip (pyStr p) = "" then paraListF rest
    else
      match p with
      | .str s => do
        let rs ← paraListF rest
        .ok ([Frag.lit "<p>", Frag.usr (pyStrip s), Frag.lit "</p>"] :: rs)
      | _ => .error (.attributeError "strip")

def joinFrags : List (List Frag) → List Frag
  | [] => []
  | [x] => x
  | x :: xs => x ++ [Frag.lit "\n"] ++ joinFrags xs

def to_paragraphsF (body : JVal) : Except PyErr (List Frag) :=
  match body with
  | .null => .ok []
  | .str s => do
    let fss ← paraListF [.str s]
    .ok (joinFrags fss)
  | .list xs => do
    let fss ← paraListF xs
    .ok (joinFrags fss)
  | v => do
    let fss ← paraListF [.str (pyStr v)]
    .ok (joinFrags fss)

def renderSecListF : List JVal → Except PyErr (List (List Frag))
  | [] => .ok []
  | sec :: rest => do
    let kind ← jGetD sec "kind" .null
    let cls := if pyEqStr kind "log" then "section section--log" else "section"
    let heading ← jGetD sec "heading" (.str "Section")
    let body ← jGetD sec "body" .null
    let parasF ← to_paragraphsF body
    let sF := [Frag.lit "<section class=\"", Frag.lit cls, Frag.lit "\">\n  <h2>",
      Frag.usr (pyStr heading), Frag.lit "</h2>\n  "] ++ parasF ++ [Frag.lit "\n</section>"]
    let rs ← renderSecListF rest
    .ok (sF :: rs)

def render_sectionsF (data : JVal) : Except PyErr (List Frag) := do
  let secsv ← jGetD data "sections" (.list [])
  let secs ← pyIter secsv
  let out ← renderSecListF secs
  .ok (joinFrags out)

def render_footerF (data : JVal) : Except PyErr (List Frag) := do
  let foot ← jGetD data "footer" (.dict [])
  let l ← jGetD foot "left" (.str "«")
  let tdef ← jGetD data "title" (.str "SCP")
  let c ← jGetD foot "center" tdef
  let r ← jGetD foot "right" (.str "»")
  .ok [.lit "<footer class=\"doc-footer\">\n  <span>", .usr (pyStr l),
    .lit "</span>\n  <span>", .usr (pyStr c), .lit "</span>\n  <span>", .usr (pyStr r),
    .lit "</span>\n</footer>"]

def pageFragsF (t : JVal) (header secs ft : List Frag) : List Frag :=
  [Frag.lit "<!doctype html>\n<html lang=\"en\">\n<head>\n<meta charset=\"utf-8\">\n<title>",
   Frag.usr (pyStr t), Frag.lit "</title>\n<style>\n", Frag.lit CSS_TEXT,
   Frag.lit "</style>\n</head>\n<body>\n<article class=\"doc\">\n"]
  ++ header ++ [Frag.lit "\n"] ++ secs ++ [Frag.lit "\n"] ++ ft
  ++ [Frag.lit "\n</article>\n</body>\n</html>\n"]

def assemble_pageF (data : JVal) (header : List Frag) : Except PyErr (List Frag) := do
  let t ← jGetD data "title" (.str "SCP Document")
  let secs ← render_sectionsF data
  let ft ← render_footerF data
  .ok (pageFragsF t header secs ft)

def build_htmlF (data : JVal) : Except PyErr (List Frag) := do
  let hm ← jGetD data "header_mode" .null
  let header ← if pyEqStr hm "acs" then render_acs_headerF data else render_classic_headerF data
  assemble_pageF data header

def entTail (cs : List Char) : Bool :=
  headEq "amp;".data cs || headEq "lt;".data cs || headEq "gt;".data cs
    || headEq "quot;".data cs || headEq "#x27;".data cs

def escSafe : List Char → Bool
  | [] => true
  | c :: cs =>
    if c = '<' || c = '>' || c.toNat = 34 || c.toNat = 39 then false
    else if c = '&' then entTail cs && escSafe cs
    else escSafe cs

def stripCmt : List Char → Bool → List Char
  | [], _ => []
  | c :: d :: e :: f :: rest, false =>
    if c = '<' && d = '!' && e = '-' && f = '-' then stripCmt rest true
    else c :: stripCmt (d :: e :: f :: rest) false
  | c :: cs, false => c :: stripCmt cs false
  | c :: d :: g :: rest, true =>
    if c = '-' && d = '-' && g = '>' then stripCmt rest false
    else stripCmt (d :: g :: rest) true
  | _ :: cs, true => stripCmt cs true

def cntStrip (r : Except PyErr String) (pat : String) : Option Nat :=
  match r with
  | .ok s => some (countSub (stripCmt s.data false) pat.data)
  | .error _ => none

def ltaB : List Char → Bool
  | [] => true
  | c :: cs =>
    (c != '<' || (match cs with | [] => false | d :: _ => d != 'a')) && ltaB cs

/-! ## Theorems -/

/-- Unfolding lemma relating the tail-recursive counter to the structural one. -/
theorem countSubAux_eq (hay pat : List Char) :
    ∀ acc, countSubAux hay pat acc = acc + countSubR hay pat := by
  induction hay with
  | nil => intro acc; simp [countSubAux, countSubR]
  | cons c cs ih =>
    intro acc
    cases acc with
    | zero => simp [countSubAux, countSubR, ih]
    | succ n => simp [countSubAux, countSubR, ih]; omega

/-- Occurrence counting agrees with the structural definition. -/
theorem countSub_eq_R (hay pat : List Char) : countSub hay pat = countSubR hay pat := by
  simp [countSub, countSubAux_eq]

/-- Equality test `v == "lit"` succeeds exactly on the equal string value. -/
theorem pyEqStr_true_iff (v : JVal) (s : String) : pyEqStr v s = true ↔ v = JVal.str s := by
  cases v <;> simp [pyEqStr]

/-- C2 (code bug witness): the claim says rendering never raises, but a
section body given as a list holding a non-string element makes
`to_paragraphs` (and hence `build_html`) raise `AttributeError` — the
comprehension filter uses `str(p).strip()` but the body expression calls
`p.strip()` on the raw element. A non-dict `classic` sub-record likewise
raises at `classic.get`. -/
theorem C2_render_raises_on_malformed_input :
    to_paragraphs (JVal.list [JVal.str "ok", JVal.num 42])
      = Except.error (PyErr.attributeError "strip")
    ∧ build_html (JVal.dict [("sections", JVal.list [JVal.dict
        [("heading", JVal.str "Log"), ("body", JVal.list [JVal.str "ok", JVal.num 42])]])])
      = Except.error (PyErr.attributeError "strip")
    ∧ render_classic_header (JVal.dict [("classic", JVal.str "oops")])
      = Except.error (PyErr.attributeError "get") :=
  ⟨rfl, rfl, rfl⟩

/-- C3: for every axis label and every axis value whose lower-cased form is
not a key of the fixed icon table, `acs_badge` returns exactly the empty
string; and an acs record with one unknown axis value and three resolvable
ones yields exactly three badge fragments in the ACS header. -/
theorem C3_unknown_axis_badge_empty :
    (∀ (label v : String), iconLookup ACS_ICON_MAP (pyLower v) = none →
      acs_badge label (JVal.str v) = .ok "")
    ∧ cnt (render_acs_header (JVal.dict [("acs", JVal.dict
        [("containment_class", JVal.str "unknown-value"),
         ("secondary_class", JVal.str "thaumiel"),
         ("disruption_class", JVal.str "vlam"),
         ("risk_class", JVal.str "caution")])]))
        "<div class=\"badge badge--acs\">" = some 3 := by
  constructor
  · intro label v h
    simp [acs_badge, acs_icon_url, h, Bind.bind, Except.bind]
  · rfl

/-- C3 witness: the unknown keyword "unknown-value" concretely produces the
empty badge. -/
theorem C3_unknown_axis_badge_empty_w :
    acs_badge "Containment" (JVal.str "unknown-value") = .ok "" :=
  C3_unknown_axis_badge_empty.1 "Containment" "unknown-value" rfl

/-- C4: `build_html` selects the ACS header iff the record field "header_mode"
value is exactly the string "acs"; absence or any other value selects the
classic header, and no third variant exists. Concrete records check the
observable markers of each variant for values "acs", "classic", "ACS",
the number 1, and an absent key. -/
theorem C4_header_selection :
    (∀ kvs : List (String × JVal),
      (pyGetD kvs "header_mode" JVal.null = JVal.str "acs" →
        build_html (JVal.dict kvs)
          = (render_acs_header (JVal.dict kvs)).bind (assemble_page (JVal.dict kvs)))
      ∧ (pyGetD kvs "header_mode" JVal.null ≠ JVal.str "acs" →
        build_html (JVal.dict kvs)
          = (render_classic_header (JVal.dict kvs)).bind (assemble_page (JVal.dict kvs))))
    ∧ cnt (build_html (JVal.dict [("header_mode", JVal.str "acs")])) "<div class=\"acs-bar\">" = some 1
    ∧ cnt (build_html (JVal.dict [("header_mode", JVal.str "acs")])) "Object Class:" = some 0
    ∧ cnt (build_html (JVal.dict [("header_mode", JVal.str "classic")])) "<div class=\"acs-bar\">" = some 0
    ∧ cnt (build_html (JVal.dict [("header_mode", JVal.str "classic")])) "Object Class:" = some 1
    ∧ cnt (build_html (JVal.dict [])) "Object Class:" = some 1
    ∧ cnt (build_html (JVal.dict [("header_mode", JVal.str "ACS")])) "Object Class:" = some 1
    ∧ cnt (build_html (JVal.dict [("header_mode", JVal.num 1)])) "Object Class:" = some 1 := by
  refine ⟨fun kvs => ⟨fun h => ?_, fun h => ?_⟩, rfl, rfl, rfl, rfl, rfl, rfl, rfl⟩
  · simp [build_html, jGetD, h, pyEqStr, Bind.bind, Except.bind]
  · have hb : pyEqStr (pyGetD kvs "header_mode" JVal.null) "acs" = false := by
      cases hv : pyGetD kvs "header_mode" JVal.null <;> simp_all [pyEqStr]
    simp [build_html, jGetD, hb, Bind.bind, Except.bind]

/-- C4 witness: concrete instantiations of both directions of the selection
rule, at header_mode "acs" and at an absent header_mode. -/
theorem C4_header_selection_w :
    build_html (JVal.dict [("header_mode", JVal.str "acs")])
      = (render_acs_header (JVal.dict [("header_mode", JVal.str "acs")])).bind
          (assemble_page (JVal.dict [("header_mode", JVal.str "acs")]))
    ∧ build_html (JVal.dict [])
      = (render_classic_header (JVal.dict [])).bind (assemble_page (JVal.dict [])) :=
  ⟨(C4_header_selection.1 _).1 rfl, (C4_header_selection.1 _).2 (fun h => nomatch h)⟩

/-- Paragraph list agrees with the strip-filter-wrap pipeline on lists of
string values. -/
theorem paraList_strs (xs : List JVal) (h : xs.all isStrB = true) :
    paraList xs = .ok
      ((xs.filterMap (fun x => match x with | .str s => some s | _ => none)).filterMap spec_para) := by
  induction xs with
  | nil => rfl
  | cons x rest ih =>
    simp only [List.all_cons, Bool.and_eq_true] at h
    obtain ⟨hx, hrest⟩ := h
    cases x with
    | str s =>
      by_cases hs : pyStrip s = ""
      · simpa [paraList, pyStr, hs, spec_para, List.filterMap_cons] using ih hrest
      · simp [paraList, pyStr, hs, spec_para, List.filterMap_cons, ih hrest,
          Bind.bind, Except.bind]
    | null => simp [isStrB] at hx
    | b y => simp [isStrB] at hx
    | num n => simp [isStrB] at hx
    | list l => simp [isStrB] at hx
    | dict d => simp [isStrB] at hx

/-- C5 counterexample: a list body with a non-string element does not get
normalized, stripped and wrapped — `to_paragraphs` raises instead. -/
theorem C5_nonstring_list_entry_cex :
    to_paragraphs (JVal.list [JVal.num 42]) = Except.error (PyErr.attributeError "strip") := rfl

/-- C5 (amended): for every section body that is not a list holding
non-string elements, `to_paragraphs` normalizes the body to an ordered
sequence of strings (a single string becomes a one-element sequence; a
sequence of strings stays itself; any other non-absent value becomes a
one-element sequence via string conversion; an absent body becomes the
empty sequence), strips each entry, discards blank entries, and wraps each
survivor in its own escaped paragraph, preserving order. -/
theorem C5_to_paragraphs_normalization (body : JVal) (h : bodyGood body = true) :
    to_paragraphs body = .ok (pyJoin "\n" ((spec_normalize body).filterMap spec_para)) := by
  cases body with
  | null => rfl
  | str s =>
    simp [to_paragraphs, spec_normalize, paraList_strs [JVal.str s] (by simp [isStrB]),
      Bind.bind, Except.bind, List.filterMap_cons]
  | list xs =>
    have hg : xs.all isStrB = true := by simpa [bodyGood] using h
    simp [to_paragraphs, spec_normalize, paraList_strs xs hg, Bind.bind, Except.bind]
  | b y =>
    simp [to_paragraphs, spec_normalize, paraList_strs [JVal.str (pyStr (JVal.b y))] (by simp [isStrB]),
      Bind.bind, Except.bind, List.filterMap_cons]
  | num n =>
    simp [to_paragraphs, spec_normalize, paraList_strs [JVal.str (pyStr (JVal.num n))] (by simp [isStrB]),
      Bind.bind, Except.bind, List.filterMap_cons]
  | dict kvs =>
    simp [to_paragraphs, spec_normalize, paraList_strs [JVal.str (pyStr (JVal.dict kvs))] (by simp [isStrB]),
      Bind.bind, Except.bind, List.filterMap_cons]

/-- C5 witness: a list body with blank and whitespace-only entries yields one
paragraph per non-blank entry, in order. -/
theorem C5_to_paragraphs_normalization_w :
    bodyGood (JVal.list [JVal.str "  a  ", JVal.str "", JVal.str "  ", JVal.str "b"]) = true
    ∧ to_paragraphs (JVal.list [JVal.str "  a  ", JVal.str "", JVal.str "  ", JVal.str "b"])
        = .ok (pyJoin "\n" ((spec_normalize
            (JVal.list [JVal.str "  a  ", JVal.str "", JVal.str "  ", JVal.str "b"])).filterMap
              spec_para)) :=
  ⟨rfl, C5_to_paragraphs_normalization _ rfl⟩

/-- C6: present-but-falsy values are kept verbatim while only missing keys
trigger defaults, across classic object_class and item number, acs item
number and clearance level, and all three footer slots; defaulting never
fails (all renders return ok). -/
theorem C6_defaults_by_key_absence :
    cnt (render_classic_header (JVal.dict [("classic", JVal.dict [("object_class", JVal.str "")])]))
      "Object Class:</span> </div>" = some 1
    ∧ cnt (render_classic_header (JVal.dict [("classic", JVal.dict [("object_class", JVal.str "")])]))
      "Euclid" = some 0
    ∧ cnt (render_classic_header (JVal.dict [])) "Object Class:</span> Euclid</div>" = some 1
    ∧ cnt (render_classic_header (JVal.dict [("title", JVal.str "T"),
        ("classic", JVal.dict [("item_number", JVal.str "")])])) "Item #:</span> </div>" = some 1
    ∧ cnt (render_classic_header (JVal.dict [("title", JVal.str "T")])) "Item #:</span> T</div>" = some 1
    ∧ cnt (render_acs_header (JVal.dict [("acs", JVal.dict [("item_number", JVal.str "")])]))
      "Item #</span></div>" = some 1
    ∧ cnt (render_acs_header (JVal.dict [])) "Item #</span>SCP-XXXX</div>" = some 1
    ∧ cnt (render_acs_header (JVal.dict [("acs", JVal.dict [("clearance_level", JVal.num 0)])]))
      "Clearance</span>Level 0</div>" = some 1
    ∧ cnt (render_acs_header (JVal.dict [("acs", JVal.dict [("clearance_level", JVal.num 0)])]))
      "Level 2" = some 0
    ∧ cnt (render_acs_header (JVal.dict [])) "Clearance</span>Level 2</div>" = some 1
    ∧ cnt (render_footer (JVal.dict [("footer", JVal.dict [("left", JVal.str "")])]))
      "<span></span>" = some 1
    ∧ cnt (render_footer (JVal.dict [("footer", JVal.dict [("left", JVal.str "")])]))
      "<span>«</span>" = some 0
    ∧ cnt (render_footer (JVal.dict [])) "<span>«</span>" = some 1
    ∧ cnt (render_footer (JVal.dict [("footer", JVal.dict [("center", JVal.str "")])]))
      "<span></span>" = some 1
    ∧ cnt (render_footer (JVal.dict [])) "<span>SCP</span>" = some 1
    ∧ cnt (render_footer (JVal.dict [("footer", JVal.dict [("right", JVal.str "")])]))
      "<span></span>" = some 1 :=
  ⟨rfl, rfl, rfl, rfl, rfl, rfl, rfl, rfl, rfl, rfl, rfl, rfl, rfl, rfl, rfl, rfl⟩

/-- C7 counterexample: the badge fragments for "Safe" and "SAFE" are not
identical — the displayed value keeps the input casing. -/
theorem C7_badge_not_identical_cex :
    cnt (acs_badge "Containment" (JVal.str "Safe")) ">Safe</div>" = some 1
    ∧ cnt (acs_badge "Containment" (JVal.str "SAFE")) ">Safe</div>" = some 0
    ∧ acs_badge "Containment" (JVal.str "Safe") ≠ acs_badge "Containment" (JVal.str "SAFE") := by
  have h1 : cnt (acs_badge "Containment" (JVal.str "Safe")) ">Safe</div>" = some 1 := rfl
  have h2 : cnt (acs_badge "Containment" (JVal.str "SAFE")) ">Safe</div>" = some 0 := rfl
  refine ⟨h1, h2, fun h => ?_⟩
  rw [h] at h1
  exact absurd (h1.symm.trans h2) (by decide)

/-- C7 (amended): icon resolution is case-insensitive — axis values with the
same lower-cased form resolve to the same icon URL — and the three casings
of "safe" all produce a badge holding the same icon file. -/
theorem C7_icon_case_insensitive :
    (∀ v w : String, pyLower v = pyLower w →
      acs_icon_url (JVal.str v) = acs_icon_url (JVal.str w))
    ∧ cnt (acs_badge "Containment" (JVal.str "Safe")) "safe-icon.svg" = some 1
    ∧ cnt (acs_badge "Containment" (JVal.str "SAFE")) "safe-icon.svg" = some 1
    ∧ cnt (acs_badge "Containment" (JVal.str "safe")) "safe-icon.svg" = some 1 := by
  refine ⟨fun v w h => ?_, rfl, rfl, rfl⟩
  simp [acs_icon_url, h]

/-- C7 witness: "Safe" and "SAFE" concretely resolve to the same icon URL. -/
theorem C7_icon_case_insensitive_w :
    acs_icon_url (JVal.str "Safe") = acs_icon_url (JVal.str "SAFE") :=
  C7_icon_case_insensitive.1 "Safe" "SAFE" rfl

/-- C8 counterexample: with the clearance label key present but holding the
empty string, the clearance line is "Level 2", not "Level 2: " — the suffix
is driven by truthiness of the label value, not key presence. -/
theorem C8_clearance_empty_label_cex :
    cnt (render_acs_header (JVal.dict [("acs", JVal.dict [("clearance_label", JVal.str "")])]))
      "Level 2:" = some 0
    ∧ cnt (render_acs_header (JVal.dict [("acs", JVal.dict [("clearance_label", JVal.str "")])]))
      "Clearance</span>Level 2</div>" = some 1 := ⟨rfl, rfl⟩

/-- C8 (amended): the clearance line equals "Level {level}" when the label
value is falsy (absent key, or present with a falsy value such as the empty
string) and "Level {level}: {label}" when the label is truthy; and the
example record of the spec produces clearance line "Level 3: Site Director" with
exactly two paragraphs, "Line one." then "Line two.", under the
"Description" heading. -/
theorem C8_clearance_line :
    (∀ lvl lbl : JVal, pyTruthy lbl = false → acs_clearance lvl lbl = "Level " ++ pyStr lvl)
    ∧ (∀ lvl lbl : JVal, pyTruthy lbl = true →
        acs_clearance lvl lbl = "Level " ++ pyStr lvl ++ ": " ++ pyStr lbl)
    ∧ cnt (build_html exampleRecordC8) "Clearance</span>Level 3: Site Director</div>" = some 1
    ∧ cnt (build_html exampleRecordC8) "<p>" = some 2
    ∧ cnt (build_html exampleRecordC8) "<p>Line one.</p>\n<p>Line two.</p>" = some 1
    ∧ cnt (build_html exampleRecordC8) "<h2>Description</h2>" = some 1 := by
  refine ⟨fun lvl lbl h => by simp [acs_clearance, h],
    fun lvl lbl h => by simp [acs_clearance, h, String.append_assoc], rfl, rfl, rfl, rfl⟩

/-- C8 witness: both branches of the clearance rule at concrete values. -/
theorem C8_clearance_line_w :
    acs_clearance (JVal.num 2) JVal.null = "Level " ++ pyStr (JVal.num 2)
    ∧ acs_clearance (JVal.num 3) (JVal.str "Site Director")
        = "Level " ++ pyStr (JVal.num 3) ++ ": " ++ pyStr (JVal.str "Site Director") :=
  ⟨C8_clearance_line.1 _ _ rfl, C8_clearance_line.2.1 _ _ rfl⟩

/-- C10: when the acs sub-record omits the four axis keys, the badges are
computed at the defaults "euclid", "none", "none", "notice", which are all
keys of the icon table, so all four badges render; the keyword "none" does
not mean no badge — it resolves to notice-icon.svg, the same icon as
"notice". -/
theorem C10_default_axes_all_badged :
    (∀ kvs : List (String × JVal), pyLookup kvs "containment_class" = none →
      acs_badge "Containment" (pyGetD kvs "containment_class" (JVal.str "euclid"))
        = acs_badge "Containment" (JVal.str "euclid"))
    ∧ (∀ kvs : List (String × JVal), pyLookup kvs "secondary_class" = none →
      acs_badge "Secondary" (pyGetD kvs "secondary_class" (JVal.str "none"))
        = acs_badge "Secondary" (JVal.str "none"))
    ∧ (∀ kvs : List (String × JVal), pyLookup kvs "disruption_class" = none →
      acs_badge "Disruption" (pyGetD kvs "disruption_class" (JVal.str "none"))
        = acs_badge "Disruption" (JVal.str "none"))
    ∧ (∀ kvs : List (String × JVal), pyLookup kvs "risk_class" = none →
      acs_badge "Risk" (pyGetD kvs "risk_class" (JVal.str "notice"))
        = acs_badge "Risk" (JVal.str "notice"))
    ∧ iconLookup ACS_ICON_MAP "euclid" = some "euclid-icon.svg"
    ∧ iconLookup ACS_ICON_MAP "none" = some "notice-icon.svg"
    ∧ iconLookup ACS_ICON_MAP "notice" = some "notice-icon.svg"
    ∧ acs_icon_url (JVal.str "none") = .ok (some (ACS_ICON_BASE ++ "/" ++ "notice-icon.svg"))
    ∧ acs_icon_url (JVal.str "none") = acs_icon_url (JVal.str "notice")
    ∧ cnt (render_acs_header (JVal.dict [("header_mode", JVal.str "acs"), ("acs", JVal.dict [])]))
        "<div class=\"badge badge--acs\">" = some 4
    ∧ cnt (acs_badge "Risk" (JVal.str "none")) "notice-icon.svg" = some 1 := by
  refine ⟨fun kvs h => by simp [pyGetD, h], fun kvs h => by simp [pyGetD, h],
    fun kvs h => by simp [pyGetD, h], fun kvs h => by simp [pyGetD, h],
    rfl, rfl, rfl, rfl, rfl, rfl, rfl⟩

/-- C10 witness: the empty acs sub-record resolves every axis to its default
badge. -/
theorem C10_default_axes_all_badged_w :
    acs_badge "Containment" (pyGetD [] "containment_class" (JVal.str "euclid"))
      = acs_badge "Containment" (JVal.str "euclid") :=
  C10_default_axes_all_badged.1 [] rfl

theorem dropWhile_append_left (p : Char → Bool) (xs ys : List Char) (h : xs.dropWhile p ≠ []) :
    (xs ++ ys).dropWhile p = xs.dropWhile p ++ ys := by
  induction xs with
  | nil => simp at h
  | cons a t ih =>
    by_cases hp : p a
    · rw [List.dropWhile_cons_of_pos hp] at h
      rw [List.cons_append, List.dropWhile_cons_of_pos hp, List.dropWhile_cons_of_pos hp]
      exact ih h
    · rw [List.cons_append, List.dropWhile_cons_of_neg hp, List.dropWhile_cons_of_neg hp,
        List.cons_append]

theorem pyStrip_eq (x m y : String)
    (hx : x.data.dropWhile pyIsSpace ≠ [])
    (hy : y.data.reverse.dropWhile pyIsSpace ≠ []) :
    pyStrip (x ++ m ++ y) = sLeft x ++ m ++ sRight y := by
  apply String.ext
  show stripChars (x ++ m ++ y).data = _
  unfold stripChars sLeft sRight
  have h1 : (x ++ m ++ y).data = x.data ++ (m.data ++ y.data) := by
    simp [String.data_append]
  rw [h1, dropWhile_append_left _ _ _ hx]
  have h2 : (x.data.dropWhile pyIsSpace ++ (m.data ++ y.data)).reverse
      = y.data.reverse ++ (m.data.reverse ++ (x.data.dropWhile pyIsSpace).reverse) := by
    simp [List.reverse_append]
  rw [h2, dropWhile_append_left _ _ _ hy]
  simp [String.data_append, List.reverse_append, List.append_assoc]

theorem str_append_empty (s : String) : s ++ "" = s := by
  apply String.ext
  simp [String.data_append]

theorem acs_badge_frags (label : String) (value : JVal) :
    acs_badge label value = (acs_badgeF label value).map renderFrags := by
  cases hi : acs_icon_url value with
  | error e => simp [acs_badge, acs_badgeF, hi, Bind.bind, Except.bind, Except.map]
  | ok io =>
    cases io with
    | none => simp [acs_badge, acs_badgeF, hi, Bind.bind, Except.bind, Except.map, renderFrags]
    | some icon =>
      by_cases h0 : icon = ""
      · simp [acs_badge, acs_badgeF, hi, h0, Bind.bind, Except.bind, Except.map, renderFrags]
      · simp only [acs_badge, acs_badgeF, hi, h0, Bind.bind, Except.bind, Except.map,
          if_neg h0]
        rw [pyStrip_eq _ _ _ (by decide) (by decide)]
        simp only [renderFrags, fragStr, esc, sLeft, sRight, String.append_assoc,
          str_append_empty]
        rfl

theorem renderFrags_append (a b : List Frag) :
    renderFrags (a ++ b) = renderFrags a ++ renderFrags b := by
  induction a with
  | nil => simp [renderFrags]
  | cons f fs ih => simp [renderFrags, ih, String.append_assoc]

theorem subtitle_frag_frags (subv : JVal) :
    subtitle_frag subv = renderFrags (subtitle_fragF subv) := by
  by_cases h : pyTruthy subv = true
  · simp [subtitle_frag, subtitle_fragF, h, renderFrags, fragStr, esc, str_append_empty,
      String.append_assoc]
  · simp only [Bool.not_eq_true] at h
    simp [subtitle_frag, subtitle_fragF, h, renderFrags]

theorem memo_frag_frags (memo_url : JVal) :
    memo_frag memo_url = renderFrags (memo_fragF memo_url) := by
  by_cases h : pyTruthy memo_url = true
  · simp [memo_frag, memo_fragF, h, renderFrags, fragStr, esc, str_append_empty,
      String.append_assoc]
  · simp only [Bool.not_eq_true] at h
    simp [memo_frag, memo_fragF, h, renderFrags]

theorem render_classic_header_frags (data : JVal) :
    render_classic_header data = (render_classic_headerF data).map renderFrags := by
  cases h1 : jGetD data "classic" (.dict []) with
  | error e => simp [render_classic_header, render_classic_headerF, h1, Bind.bind, Except.bind, Except.map]
  | ok classic =>
  cases h2 : jGetD data "title" (.str "SCP-XXXX") with
  | error e => simp [render_classic_header, render_classic_headerF, h1, h2, Bind.bind, Except.bind, Except.map]
  | ok tdef =>
  cases h3 : jGetD classic "item_number" tdef with
  | error e => simp [render_classic_header, render_classic_headerF, h1, h2, h3, Bind.bind, Except.bind, Except.map]
  | ok item_number =>
  cases h4 : jGetD classic "object_class" (.str "Euclid") with
  | error e => simp [render_classic_header, render_classic_headerF, h1, h2, h3, h4, Bind.bind, Except.bind, Except.map]
  | ok object_class =>
  cases h5 : jGetD data "title" item_number with
  | error e => simp [render_classic_header, render_classic_headerF, h1, h2, h3, h4, h5, Bind.bind, Except.bind, Except.map]
  | ok tdisp =>
  cases h6 : jGetD data "subtitle" .null with
  | error e => simp [render_classic_header, render_classic_headerF, h1, h2, h3, h4, h5, h6, Bind.bind, Except.bind, Except.map]
  | ok subv =>
  simp only [render_classic_header, render_classic_headerF, h1, h2, h3, h4, h5, h6,
    Bind.bind, Except.bind, Except.map]
  rw [pyStrip_eq _ _ _ (by decide) (by decide), subtitle_frag_frags]
  simp only [renderFrags_append]
  simp only [renderFrags, fragStr, esc, String.append_assoc, str_append_empty]
  rfl

theorem render_acs_header_frags (data : JVal) :
    render_acs_header data = (render_acs_headerF data).map renderFrags := by
  cases h1 : jGetD data "acs" (.dict []) with
  | error e => simp [render_acs_header, render_acs_headerF, h1, Bind.bind, Except.bind, Except.map]
  | ok acs =>
  cases h2 : jGetD data "title" (.str "SCP-XXXX") with
  | error e => simp [render_acs_header, render_acs_headerF, h1, h2, Bind.bind, Except.bind, Except.map]
  | ok title =>
  cases h3 : jGetD acs "item_number" title with
  | error e => simp [render_acs_header, render_acs_headerF, h1, h2, h3, Bind.bind, Except.bind, Except.map]
  | ok item_number =>
  cases h4 : jGetD acs "clearance_level" (.num 2) with
  | error e => simp [render_acs_header, render_acs_headerF, h1, h2, h3, h4, Bind.bind, Except.bind, Except.map]
  | ok clearance_level =>
  cases h5 : jGetD acs "clearance_label" (.str "") with
  | error e => simp [render_acs_header, render_acs_headerF, h1, h2, h3, h4, h5, Bind.bind, Except.bind, Except.map]
  | ok clearance_label =>
  cases h6 : jGetD acs "containment_class" (.str "euclid") with
  | error e => simp [render_acs_header, render_acs_headerF, h1, h2, h3, h4, h5, h6, Bind.bind, Except.bind, Except.map]
  | ok containment =>
  cases h7 : jGetD acs "secondary_class" (.str "none") with
  | error e => simp [render_acs_header, render_acs_headerF, h1, h2, h3, h4, h5, h6, h7, Bind.bind, Except.bind, Except.map]
  | ok secondary =>
  cases h8 : jGetD acs "disruption_class" (.str "none") with
  | error e => simp [render_acs_header, render_acs_headerF, h1, h2, h3, h4, h5, h6, h7, h8, Bind.bind, Except.bind, Except.map]
  | ok disruption =>
  cases h9 : jGetD acs "risk_class" (.str "notice") with
  | error e => simp [render_acs_header, render_acs_headerF, h1, h2, h3, h4, h5, h6, h7, h8, h9, Bind.bind, Except.bind, Except.map]
  | ok risk =>
  cases h10 : jGetD acs "memo_url" .null with
  | error e => simp [render_acs_header, render_acs_headerF, h1, h2, h3, h4, h5, h6, h7, h8, h9, h10, Bind.bind, Except.bind, Except.map]
  | ok memo_url =>
  cases h11 : jGetD data "subtitle" .null with
  | error e => simp [render_acs_header, render_acs_headerF, h1, h2, h3, h4, h5, h6, h7, h8, h9, h10, h11, Bind.bind, Except.bind, Except.map]
  | ok subv =>
  simp only [render_acs_header, render_acs_headerF, h1, h2, h3, h4, h5, h6, h7, h8, h9, h10,
    h11, Bind.bind, Except.bind, Except.map, acs_badge_frags]
  cases hb1 : acs_badgeF "Containment" containment with
  | error e => simp [hb1, Except.map]
  | ok f1 =>
  cases hb2 : acs_badgeF "Secondary" secondary with
  | error e => simp [hb1, hb2, Except.map]
  | ok f2 =>
  cases hb3 : acs_badgeF "Disruption" disruption with
  | error e => simp [hb1, hb2, hb3, Except.map]
  | ok f3 =>
  cases hb4 : acs_badgeF "Risk" risk with
  | error e => simp [hb1, hb2, hb3, hb4, Except.map]
  | ok f4 =>
  simp only [hb1, hb2, hb3, hb4, Except.map]
  rw [pyStrip_eq _ _ _ (by decide) (by decide), subtitle_frag_frags, memo_frag_frags]
  simp only [renderFrags_append]
  simp only [renderFrags, fragStr, esc, String.append_assoc, str_append_empty]
  rfl

theorem renderFrags_joinFrags (xss : List (List Frag)) :
    renderFrags (joinFrags xss) = pyJoin "\n" (xss.map renderFrags) := by
  induction xss with
  | nil => rfl
  | cons x xs ih =>
    cases xs with
    | nil => simp [joinFrags, pyJoin]
    | cons y ys =>
      simp only [joinFrags, pyJoin, List.map_cons, renderFrags_append, renderFrags, fragStr,
        String.append_assoc, str_append_empty] at ih ⊢
      rw [ih]

theorem paraList_frags (xs : List JVal) :
    paraList xs = (paraListF xs).map (List.map renderFrags) := by
  induction xs with
  | nil => rfl
  | cons p rest ih =>
    by_cases hs : pyStrip (pyStr p) = ""
    · simpa [paraList, paraListF, hs] using ih
    · cases p with
      | str s =>
        cases hp : paraListF rest with
        | error e =>
          rw [hp] at ih
          simp [paraList, paraListF, hs, hp, ih, Bind.bind, Except.bind, Except.map]
        | ok fss =>
          rw [hp] at ih
          simp [paraList, paraListF, hs, hp, ih, Bind.bind, Except.bind, Except.map,
            renderFrags, fragStr, String.append_assoc, str_append_empty]
      | null => simp [paraList, paraListF, hs, Except.map]
      | b y => simp [paraList, paraListF, hs, Except.map]
      | num n => simp [paraList, paraListF, hs, Except.map]
      | list l => simp [paraList, paraListF, hs, Except.map]
      | dict d => simp [paraList, paraListF, hs, Except.map]

theorem to_paragraphs_frags (body : JVal) :
    to_paragraphs body = (to_paragraphsF body).map renderFrags := by
  have key : ∀ items : List JVal,
      (do
        let frags ← paraList items
        Except.ok (pyJoin "\n" frags))
      = ((do
          let fss ← paraListF items
          Except.ok (joinFrags fss)) : Except PyErr (List Frag)).map renderFrags := by
    intro items
    rw [paraList_frags]
    cases hp : paraListF items with
    | error e => simp [Except.map, Bind.bind, Except.bind]
    | ok fss => simp [Except.map, Bind.bind, Except.bind, renderFrags_joinFrags]
  cases body with
  | null => rfl
  | str s => exact key [.str s]
  | list xs => exact key xs
  | b y => exact key [.str (pyStr (JVal.b y))]
  | num n => exact key [.str (pyStr (JVal.num n))]
  | dict d => exact key [.str (pyStr (JVal.dict d))]

theorem renderSecList_frags (xs : List JVal) :
    renderSecList xs = (renderSecListF xs).map (List.map renderFrags) := by
  induction xs with
  | nil => rfl
  | cons sec rest ih =>
    cases h1 : jGetD sec "kind" .null with
    | error e => simp [renderSecList, renderSecListF, h1, Bind.bind, Except.bind, Except.map]
    | ok kind =>
    cases h2 : jGetD sec "heading" (.str "Section") with
    | error e => simp [renderSecList, renderSecListF, h1, h2, Bind.bind, Except.bind, Except.map]
    | ok heading =>
    cases h3 : jGetD sec "body" .null with
    | error e => simp [renderSecList, renderSecListF, h1, h2, h3, Bind.bind, Except.bind, Except.map]
    | ok body =>
    simp only [renderSecList, renderSecListF, h1, h2, h3, Bind.bind, Except.bind,
      to_paragraphs_frags]
    cases hp : to_paragraphsF body with
    | error e => simp [hp, Except.map]
    | ok parasF =>
    cases hr : renderSecListF rest with
    | error e =>
      rw [hr] at ih
      simp [hp, hr, ih, Except.map, Bind.bind, Except.bind]
    | ok rs =>
      rw [hr] at ih
      simp only [hp, hr, ih, Except.map, Bind.bind, Except.bind]
      rw [pyStrip_eq _ _ _ (by decide) (by decide)]
      simp only [List.map_cons, renderFrags_append]
      simp only [renderFrags, fragStr, esc, String.append_assoc, str_append_empty]
      rfl

theorem render_sections_frags (data : JVal) :
    render_sections data = (render_sectionsF data).map renderFrags := by
  cases h1 : jGetD data "sections" (.list []) with
  | error e => simp [render_sections, render_sectionsF, h1, Bind.bind, Except.bind, Except.map]
  | ok secsv =>
  cases h2 : pyIter secsv with
  | error e => simp [render_sections, render_sectionsF, h1, h2, Bind.bind, Except.bind, Except.map]
  | ok secs =>
  simp only [render_sections, render_sectionsF, h1, h2, Bind.bind, Except.bind,
    renderSecList_frags]
  cases h3 : renderSecListF secs with
  | error e => simp [h3, Except.map]
  | ok out => simp [h3, Except.map, renderFrags_joinFrags]

theorem render_footer_frags (data : JVal) :
    render_footer data = (render_footerF data).map renderFrags := by
  cases h1 : jGetD data "footer" (.dict []) with
  | error e => simp [render_footer, render_footerF, h1, Bind.bind, Except.bind, Except.map]
  | ok foot =>
  cases h2 : jGetD foot "left" (.str "«") with
  | error e => simp [render_footer, render_footerF, h1, h2, Bind.bind, Except.bind, Except.map]
  | ok l =>
  cases h3 : jGetD data "title" (.str "SCP") with
  | error e => simp [render_footer, render_footerF, h1, h2, h3, Bind.bind, Except.bind, Except.map]
  | ok tdef =>
  cases h4 : jGetD foot "center" tdef with
  | error e => simp [render_footer, render_footerF, h1, h2, h3, h4, Bind.bind, Except.bind, Except.map]
  | ok c =>
  cases h5 : jGetD foot "right" (.str "»") with
  | error e => simp [render_footer, render_footerF, h1, h2, h3, h4, h5, Bind.bind, Except.bind, Except.map]
  | ok r =>
  simp only [render_footer, render_footerF, h1, h2, h3, h4, h5, Bind.bind, Except.bind,
    Except.map]
  rw [pyStrip_eq _ _ _ (by decide) (by decide)]
  simp only [renderFrags, fragStr, esc, String.append_assoc, str_append_empty]
  rfl

theorem assemble_page_frags (data : JVal) (headerF : List Frag) :
    assemble_page data (renderFrags headerF)
      = (assemble_pageF data headerF).map renderFrags := by
  cases h1 : jGetD data "title" (.str "SCP Document") with
  | error e => simp [assemble_page, assemble_pageF, h1, Bind.bind, Except.bind, Except.map]
  | ok t =>
  simp only [assemble_page, assemble_pageF, h1, Bind.bind, Except.bind,
    render_sections_frags, render_footer_frags]
  cases h2 : render_sectionsF data with
  | error e => simp [h2, Except.map]
  | ok secs =>
  cases h3 : render_footerF data with
  | error e => simp [h2, h3, Except.map]
  | ok ft =>
  simp only [h2, h3, Except.map]
  simp only [pageText, pageFragsF, renderFrags_append]
  simp only [renderFrags, fragStr, esc, String.append_assoc, str_append_empty]

theorem build_html_frags (data : JVal) :
    build_html data = (build_htmlF data).map renderFrags := by
  cases h1 : jGetD data "header_mode" .null with
  | error e => simp [build_html, build_htmlF, h1, Bind.bind, Except.bind, Except.map]
  | ok hm =>
  by_cases hacs : pyEqStr hm "acs" = true
  · simp only [build_html, build_htmlF, h1, hacs, Bind.bind, Except.bind, if_pos,
      render_acs_header_frags]
    cases h2 : render_acs_headerF data with
    | error e => simp [h2, Except.map]
    | ok hf =>
      simp only [h2, Except.map]
      exact assemble_page_frags data hf
  · simp only [Bool.not_eq_true] at hacs
    simp only [build_html, build_htmlF, h1, hacs, Bind.bind, Except.bind, Bool.false_eq_true,
      if_false, render_classic_header_frags]
    cases h2 : render_classic_headerF data with
    | error e => simp [h2, Except.map]
    | ok hf =>
      simp only [h2, Except.map]
      exact assemble_page_frags data hf

theorem escSafe_amp (rest : List Char) : escSafe ("&amp;".data ++ rest) = escSafe rest := rfl

theorem escSafe_lt (rest : List Char) : escSafe ("&lt;".data ++ rest) = escSafe rest := rfl

theorem escSafe_gt (rest : List Char) : escSafe ("&gt;".data ++ rest) = escSafe rest := rfl

theorem escSafe_quot (rest : List Char) : escSafe ("&quot;".data ++ rest) = escSafe rest := rfl

theorem escSafe_x27 (rest : List Char) : escSafe ("&#x27;".data ++ rest) = escSafe rest := rfl

theorem escSafe_escL (cs : List Char) : escSafe (escL cs) = true := by
  induction cs with
  | nil => rfl
  | cons c cs ih =>
    by_cases h1 : c = '&'
    · rw [escL, h1]
      show escSafe ("&amp;".data ++ escL cs) = true
      rw [escSafe_amp]
      exact ih
    · by_cases h2 : c = '<'
      · rw [escL, h2]
        show escSafe ("&lt;".data ++ escL cs) = true
        rw [escSafe_lt]
        exact ih
      · by_cases h3 : c = '>'
        · rw [escL, h3]
          show escSafe ("&gt;".data ++ escL cs) = true
          rw [escSafe_gt]
          exact ih
        · by_cases h4 : c.toNat = 34
          · rw [escL]
            have : escChar c = "&quot;" := by simp [escChar, h1, h2, h3, h4]
            rw [this]
            show escSafe ("&quot;".data ++ escL cs) = true
            rw [escSafe_quot]
            exact ih
          · by_cases h5 : c.toNat = 39
            · rw [escL]
              have : escChar c = "&#x27;" := by simp [escChar, h1, h2, h3, h4, h5]
              rw [this]
              show escSafe ("&#x27;".data ++ escL cs) = true
              rw [escSafe_x27]
              exact ih
            · rw [escL]
              have : escChar c = String.singleton c := by simp [escChar, h1, h2, h3, h4, h5]
              rw [this]
              show escSafe (c :: escL cs) = true
              rw [escSafe]
              simp [h1, h2, h3, h4, h5, ih]

theorem ltaB_append (a b : List Char) (ha : ltaB a = true) (hb : ltaB b = true) :
    ltaB (a ++ b) = true := by
  induction a with
  | nil => simpa using hb
  | cons c cs ih =>
    simp only [ltaB, Bool.and_eq_true] at ha
    obtain ⟨hc, hcs⟩ := ha
    simp only [List.cons_append, ltaB, Bool.and_eq_true]
    refine ⟨?_, ih hcs⟩
    cases cs with
    | nil =>
      simp only [Bool.or_eq_true] at hc ⊢
      rcases hc with h | h
      · exact Or.inl h
      · exact absurd h (by simp)
    | cons d t => simpa using hc

theorem countSubR_la_zero (cs : List Char) (h : ltaB cs = true) :
    countSubR cs ['<', 'a'] = 0 := by
  induction cs with
  | nil => rfl
  | cons c cs ih =>
    simp only [ltaB, Bool.and_eq_true] at h
    obtain ⟨hc, hcs⟩ := h
    have hne : headEq ['<', 'a'] (c :: cs) = false := by
      by_cases hceq : c = '<'
      · cases cs with
        | nil => simp [headEq]
        | cons d t =>
          subst hceq
          have hd : (d != 'a') = true := by simpa using hc
          have hda : ¬ ('a' = d) := by
            intro hh
            rw [← hh] at hd
            simp at hd
          simp [headEq, hda]
      · simp only [headEq]
        rw [Bool.and_eq_false_iff]
        left
        simpa [eq_comm] using hceq
    simp [countSubR, hne, ih hcs]

theorem countSub_la_zero (cs : List Char) (h : ltaB cs = true) :
    countSub cs ['<', 'a'] = 0 := by
  rw [countSub_eq_R]
  exact countSubR_la_zero cs h

theorem ltaB_of_no_lt (cs : List Char) (h : '<' ∉ cs) : ltaB cs = true := by
  induction cs with
  | nil => rfl
  | cons c cs ih =>
    have hc : ¬ c = '<' := fun hh => h (by simp [hh])
    simp only [ltaB, Bool.and_eq_true, Bool.or_eq_true, bne_iff_ne, ne_eq]
    exact ⟨Or.inl hc, ih (fun hm => h (List.mem_cons_of_mem _ hm))⟩

theorem escL_no_lt (cs : List Char) : '<' ∉ escL cs := by
  induction cs with
  | nil => simp [escL]
  | cons c cs ih =>
    simp only [escL, List.mem_append]
    rintro (hmem | hmem)
    · by_cases h1 : c = '&'
      · simp [escChar, h1] at hmem
      · by_cases h2 : c = '<'
        · simp [escChar, h1, h2] at hmem
        · by_cases h3 : c = '>'
          · simp [escChar, h1, h2, h3] at hmem
          · by_cases h4 : c.toNat = 34
            · simp [escChar, h1, h2, h3, h4] at hmem
            · by_cases h5 : c.toNat = 39
              · simp [escChar, h1, h2, h3, h4, h5] at hmem
              · simp [escChar, h1, h2, h3, h4, h5, String.singleton] at hmem
                exact h2 hmem.symm
    · exact ih hmem

theorem ltaB_esc (s : String) : ltaB (escS s).data = true :=
  ltaB_of_no_lt _ (escL_no_lt s.data)

theorem subtitle_frag_lta (subv : JVal) : ltaB (subtitle_frag subv).data = true := by
  by_cases h : pyTruthy subv = true
  · simp only [subtitle_frag, h, if_pos]
    simp only [String.data_append]
    refine ltaB_append _ _ (ltaB_append _ _ ?_ ?_) ?_
    · decide
    · exact ltaB_esc _
    · decide
  · simp only [Bool.not_eq_true] at h
    simp only [subtitle_frag, h, Bool.false_eq_true, if_false]
    rfl

theorem iconMap_lta : ∀ p ∈ ACS_ICON_MAP, ltaB (ACS_ICON_BASE ++ "/" ++ p.2).data = true := by
  decide

theorem iconLookup_mem (m : List (String × String)) (v f : String)
    (h : iconLookup m v = some f) : ∃ k, (k, f) ∈ m := by
  induction m with
  | nil => simp [iconLookup] at h
  | cons p rest ih =>
    obtain ⟨k, w⟩ := p
    by_cases hk : k = v
    · simp only [iconLookup, hk, if_pos, Option.some.injEq] at h
      exact ⟨k, by simp [h]⟩
    · simp only [iconLookup, hk, if_neg, ite_false] at h
      obtain ⟨k2, hm⟩ := ih h
      exact ⟨k2, List.mem_cons_of_mem _ hm⟩

theorem icon_lta (v f : String) (h : iconLookup ACS_ICON_MAP v = some f) :
    ltaB (ACS_ICON_BASE ++ "/" ++ f).data = true := by
  obtain ⟨k, hk⟩ := iconLookup_mem _ _ _ h
  exact iconMap_lta (k, f) hk

theorem badge_lta (label : String) (value : JVal) (out : String)
    (h : acs_badge label value = .ok out) : ltaB out.data = true := by
  cases hi : acs_icon_url value with
  | error e => simp [acs_badge, hi, Bind.bind, Except.bind] at h
  | ok io =>
    cases io with
    | none =>
      simp only [acs_badge, hi, Bind.bind, Except.bind, Except.ok.injEq] at h
      subst h
      rfl
    | some icon =>
      have hicon : (icon = "") = False → ltaB icon.data = true := by
        intro h0
        cases value with
        | str s =>
          simp only [acs_icon_url] at hi
          cases hl : iconLookup ACS_ICON_MAP (pyLower s) with
          | none => rw [hl] at hi; simp at hi
          | some f =>
            rw [hl] at hi
            by_cases hf0 : f = ""
            · simp [hf0] at hi
            · simp only [hf0, if_neg, ite_false, Except.ok.injEq, Option.some.injEq] at hi
              rw [← hi]
              exact icon_lta _ _ hl
        | null => simp [acs_icon_url] at hi
        | b y => simp [acs_icon_url] at hi
        | num n => simp [acs_icon_url] at hi
        | list l => simp [acs_icon_url] at hi
        | dict d => simp [acs_icon_url] at hi
      by_cases h0 : icon = ""
      · simp only [acs_badge, hi, h0, Bind.bind, Except.bind, if_pos, Except.ok.injEq] at h
        subst h
        rfl
      · simp only [acs_badge, hi, Bind.bind, Except.bind, if_neg h0, Except.ok.injEq] at h
        subst h
        rw [pyStrip_eq _ _ _ (by decide) (by decide)]
        simp only [String.data_append]
        repeat' apply ltaB_append
        all_goals first
          | exact hicon (by simp [h0])
          | exact ltaB_esc _
          | decide

theorem memo_decomp (data : JVal) (out : String) (h : render_acs_header data = .ok out) :
    ∃ mv pre post,
      (jGetD data "acs" (.dict [])).bind (fun acs => jGetD acs "memo_url" JVal.null) = .ok mv
      ∧ out = pre ++ ("<!-- " ++ memo_frag mv ++ " -->") ++ post
      ∧ countSub pre.data ['<', 'a'] = 0
      ∧ countSub post.data ['<', 'a'] = 0 := by
  cases h1 : jGetD data "acs" (.dict []) with
  | error e => simp [render_acs_header, h1, Bind.bind, Except.bind] at h
  | ok acs =>
  cases h2 : jGetD data "title" (.str "SCP-XXXX") with
  | error e => simp [render_acs_header, h1, h2, Bind.bind, Except.bind] at h
  | ok title =>
  cases h3 : jGetD acs "item_number" title with
  | error e => simp [render_acs_header, h1, h2, h3, Bind.bind, Except.bind] at h
  | ok item_number =>
  cases h4 : jGetD acs "clearance_level" (.num 2) with
  | error e => simp [render_acs_header, h1, h2, h3, h4, Bind.bind, Except.bind] at h
  | ok clearance_level =>
  cases h5 : jGetD acs "clearance_label" (.str "") with
  | error e => simp [render_acs_header, h1, h2, h3, h4, h5, Bind.bind, Except.bind] at h
  | ok clearance_label =>
  cases h6 : jGetD acs "containment_class" (.str "euclid") with
  | error e => simp [render_acs_header, h1, h2, h3, h4, h5, h6, Bind.bind, Except.bind] at h
  | ok containment =>
  cases h7 : jGetD acs "secondary_class" (.str "none") with
  | error e => simp [render_acs_header, h1, h2, h3, h4, h5, h6, h7, Bind.bind, Except.bind] at h
  | ok secondary =>
  cases h8 : jGetD acs "disruption_class" (.str "none") with
  | error e => simp [render_acs_header, h1, h2, h3, h4, h5, h6, h7, h8, Bind.bind, Except.bind] at h
  | ok disruption =>
  cases h9 : jGetD acs "risk_class" (.str "notice") with
  | error e => simp [render_acs_header, h1, h2, h3, h4, h5, h6, h7, h8, h9, Bind.bind, Except.bind] at h
  | ok risk =>
  cases h10 : jGetD acs "memo_url" .null with
  | error e => simp [render_acs_header, h1, h2, h3, h4, h5, h6, h7, h8, h9, h10, Bind.bind, Except.bind] at h
  | ok memo_url =>
  cases h11 : jGetD data "subtitle" .null with
  | error e => simp [render_acs_header, h1, h2, h3, h4, h5, h6, h7, h8, h9, h10, h11, Bind.bind, Except.bind] at h
  | ok subv =>
  cases hb1 : acs_badge "Containment" containment with
  | error e => simp [render_acs_header, h1, h2, h3, h4, h5, h6, h7, h8, h9, h10, h11, hb1, Bind.bind, Except.bind] at h
  | ok b1 =>
  cases hb2 : acs_badge "Secondary" secondary with
  | error e => simp [render_acs_header, h1, h2, h3, h4, h5, h6, h7, h8, h9, h10, h11, hb1, hb2, Bind.bind, Except.bind] at h
  | ok b2 =>
  cases hb3 : acs_badge "Disruption" disruption with
  | error e => simp [render_acs_header, h1, h2, h3, h4, h5, h6, h7, h8, h9, h10, h11, hb1, hb2, hb3, Bind.bind, Except.bind] at h
  | ok b3 =>
  cases hb4 : acs_badge "Risk" risk with
  | error e => simp [render_acs_header, h1, h2, h3, h4, h5, h6, h7, h8, h9, h10, h11, hb1, hb2, hb3, hb4, Bind.bind, Except.bind] at h
  | ok b4 =>
  simp only [render_acs_header, h1, h2, h3, h4, h5, h6, h7, h8, h9, h10, h11, hb1, hb2, hb3,
    hb4, Bind.bind, Except.bind, Except.ok.injEq] at h
  rw [pyStrip_eq _ _ _ (by decide) (by decide)] at h
  refine ⟨memo_url,
    sLeft "\n<section class=\"doc-header\">\n  <div class=\"doc-title\">"
      ++ (esc title ++ "</div>\n  " ++ subtitle_frag subv
        ++ "\n  <div class=\"acs-bar\">\n    <div class=\"acs-top\">\n      <div class=\"acs-item\"><span class=\"acs-k\">Item #</span>"
        ++ esc item_number
        ++ "</div>\n      <div class=\"acs-item\"><span class=\"acs-k\">Clearance</span>"
        ++ escS (acs_clearance clearance_level clearance_label)
        ++ "</div>\n      "),
    "\n    </div>\n    <div class=\"acs-badges\">\n      " ++ b1 ++ "\n      " ++ b2
      ++ "\n      " ++ b3 ++ "\n      " ++ b4
      ++ sRight "\n    </div>\n  </div>\n</section>\n", ?_, ?_, ?_, ?_⟩
  · simp [h1, h10, Bind.bind, Except.bind]
  · rw [← h]
    apply String.ext
    have key1 : ("</div>\n      <!-- " : String).data
        = ("</div>\n      " : String).data ++ ("<!-- " : String).data := rfl
    have key2 : (" -->\n    </div>\n    <div class=\"acs-badges\">\n      " : String).data
        = (" -->" : String).data
          ++ ("\n    </div>\n    <div class=\"acs-badges\">\n      " : String).data := rfl
    simp [String.data_append, key1, key2, List.append_assoc]
  · simp only [String.data_append]
    apply countSub_la_zero
    repeat' apply ltaB_append
    all_goals first
      | exact subtitle_frag_lta _
      | exact ltaB_esc _
      | decide
  · simp only [String.data_append]
    apply countSub_la_zero
    repeat' apply ltaB_append
    all_goals first
      | exact badge_lta _ _ _ hb1
      | exact badge_lta _ _ _ hb2
      | exact badge_lta _ _ _ hb3
      | exact badge_lta _ _ _ hb4
      | decide

/-- C1: HTML-escaping is total. First conjunct: for every string, the escape
image contains no raw less-than, greater-than, double-quote or apostrophe
character, and every ampersand in it begins one of the five escape entities
(escSafe checks exactly this). Second conjunct: build_html factors through
the fragment mirror build_htmlF, which marks every interpolation of a
user-supplied value as a usr fragment; renderFrags emits lit fragments
verbatim and usr fragments through escS, so every user-supplied value,
in text or attribute position, is HTML-escaped before emission. -/
theorem C1_escaping_total :
    (∀ s : String, escSafe (escS s).data = true)
    ∧ (∀ data : JVal, build_html data = (build_htmlF data).map renderFrags) :=
  ⟨fun s => escSafe_escL s.data, build_html_frags⟩

/-- C9: the memo reference is confined to an HTML comment. First conjunct:
every successful ACS-header render decomposes as pre ++ "<!-- " ++ memo
fragment ++ " -->" ++ post where the memo fragment is computed from the
memo_url value of the record, and neither pre nor post contains the character
pair "<a" (so the anchor markup occurs only between the comment
delimiters). Second and third conjuncts: a falsy memo_url emits no memo
markup at all, and a truthy one emits exactly the anchor, escaped. The
concrete conjuncts evaluate a record with a memo and one without: the
anchor occurs once and vanishes when comments are stripped (never visible
to a reader), and without memo_url no memo markup is emitted and the
comment is empty. -/
theorem C9_memo_only_in_comment :
    (∀ data out, render_acs_header data = .ok out →
      ∃ mv pre post,
        (jGetD data "acs" (.dict [])).bind (fun acs => jGetD acs "memo_url" JVal.null)
          = .ok mv
        ∧ out = pre ++ ("<!-- " ++ memo_frag mv ++ " -->") ++ post
        ∧ countSub pre.data ['<', 'a'] = 0
        ∧ countSub post.data ['<', 'a'] = 0)
    ∧ (∀ mv, pyTruthy mv = false → memo_frag mv = "")
    ∧ (∀ mv, pyTruthy mv = true →
        memo_frag mv = "<a class=\x27memo-link\x27 href=\x27" ++ esc mv ++ "\x27>Link to memo</a>")
    ∧ cnt (render_acs_header (JVal.dict [("acs", JVal.dict
        [("memo_url", JVal.str "https://example.org/memo")])])) "memo-link" = some 1
    ∧ cntStrip (render_acs_header (JVal.dict [("acs", JVal.dict
        [("memo_url", JVal.str "https://example.org/memo")])])) "memo-link" = some 0
    ∧ cnt (render_acs_header (JVal.dict [])) "memo-link" = some 0
    ∧ cnt (render_acs_header (JVal.dict [])) "<a " = some 0
    ∧ cnt (render_acs_header (JVal.dict [])) "<!--  -->" = some 1 := by
  refine ⟨memo_decomp, fun mv h => by simp [memo_frag, h],
    fun mv h => by simp [memo_frag, h], rfl, rfl, rfl, rfl, rfl⟩

/-- C9 witness: the decomposition at a concrete record carrying a memo URL. -/
theorem C9_memo_only_in_comment_w :
    ∃ mv pre post,
      (jGetD (JVal.dict [("acs", JVal.dict
          [("memo_url", JVal.str "https://example.org/memo")])]) "acs" (.dict [])).bind
        (fun acs => jGetD acs "memo_url" JVal.null) = .ok mv
      ∧ (render_acs_header (JVal.dict [("acs", JVal.dict
            [("memo_url", JVal.str "https://example.org/memo")])])).toOption.getD ""
          = pre ++ ("<!-- " ++ memo_frag mv ++ " -->") ++ post
      ∧ countSub pre.data ['<', 'a'] = 0
      ∧ countSub post.data ['<', 'a'] = 0 :=
  C9_memo_only_in_comment.1 _ _ rfl

end SCPDoc
